import Mathlib

/-!
Shallow embedding of `src/useWebSocket.ts` (the `useWebSocket` React hook).

The hook's effect body closes over the mutable variables `isManuallyClosed`,
`socket` and `retryDelay`, publishes the React state `ws` / `isConnected`,
registers `online` / `offline` listeners on `window`, and reconnects with
exponential backoff plus jitter through `setTimeout`.

The embedding is an event-driven transition system.  A `HookState` carries
the closure variables, the published React state, every `WebSocket` object
created so far (in creation order, identified by its index), the pending
retry timers, and the listener registrations.  The environment delivers
discrete events (`Ev`): the mount (effect body), browser delivery of a
socket's `open` / `close` / `error` callback, the `online` / `offline`
window events, the firing of a pending retry timer, and the effect cleanup.
`evValid` states when the browser can deliver an event (e.g. `open` only
fires on a still-CONNECTING socket whose `close()` was not called, `online`
only fires on an actual transition), and `run?` folds a list of events,
returning `none` on an undeliverable event.

Jitter (`Math.random() * 500`) is an environment input attached to each
`close` event, a rational in `[0, 500)`.
-/

namespace ReactWebSocket

/-- `readyState` of one `WebSocket` object: CONNECTING, OPEN, or CLOSED
(the close event was delivered).  CLOSING is represented by the `closeReq`
flag of `Sock`. -/
inductive SockSt
  | connecting
  | opened
  | closedSt
  deriving DecidableEq

/-- One `WebSocket` object created by `connect`.  `msgs` is the log of
payloads actually transmitted on this socket, `closeReq` records that
`close()` was called on it, and `everOpened` records (as history) that its
`onopen` callback has fired. -/
structure Sock where
  st : SockSt
  closeReq : Bool
  msgs : List String
  everOpened : Bool
  deriving DecidableEq

/-- The whole state of one run of the hook's effect: the closure variables
(`isManuallyClosed`, `retryDelay`, `socketVar` for the mutable `socket`
variable, `none` before the first assignment), the published React state
(`ws`, `isConnected`), `navigator.onLine`, all sockets created so far,
the delays of the pending `setTimeout` retry callbacks, whether the effect
has run and whether the window listeners are currently registered, and
`badSend`, set when a `send` is attempted on a still-CONNECTING socket
(which throws in a browser). -/
structure HookState where
  isManuallyClosed : Bool
  retryDelay : Nat
  socketVar : Option Nat
  ws : Option Nat
  isConnected : Bool
  onLine : Bool
  socks : List Sock
  timers : List ℚ
  mounted : Bool
  onlineReg : Bool
  offlineReg : Bool
  badSend : Bool
  deriving DecidableEq

/-- `let retryDelay = 1000` — initial reconnect delay in ms. -/
def initialDelay : Nat := 1000

/-- `const maxDelay = 30000` — max reconnect delay in ms. -/
def maxDelay : Nat := 30000

/-- `JSON.stringify(\x7b type: "entered" \x7d)`, the presence payload the
hook sends from `onopen`. -/
def enteredPayload : String := "\x7b\"type\":\"entered\"\x7d"

/-- Replace the element at index `i` by `f` of it (out of range: no-op). -/
def modifyIdx (l : List α) (i : Nat) (f : α → α) : List α :=
  match l, i with
  | [], _ => []
  | a :: t, 0 => f a :: t
  | a :: t, n + 1 => a :: modifyIdx t n f

/-- `socket.close()` on the socket object `i`: marks CLOSING unless the
socket is already CLOSED (then it is a no-op). -/
def closeCall (s : HookState) (i : Nat) : HookState :=
  let f := fun (k : Sock) => if k.st = SockSt.closedSt then k else { k with closeReq := true }
  { s with socks := modifyIdx s.socks i f }

/-- `socket?.close()` on the mutable `socket` variable — the optional
chaining makes it a no-op while the variable was never assigned. -/
def closeVar (s : HookState) : HookState :=
  match s.socketVar with
  | none => s
  | some i => closeCall s i

/-- `socket.send(m)` on the socket object `i` (the hook only ever calls it
through the mutable `socket` variable): transmits when the socket is OPEN,
throws (recorded in `badSend`) when still CONNECTING, and is silently
discarded when CLOSING or CLOSED. -/
def sendOn (s : HookState) (i : Option Nat) (m : String) : HookState :=
  match i with
  | none => { s with badSend := true }
  | some k =>
    match s.socks[k]? with
    | none => { s with badSend := true }
    | some so =>
      match so.st with
      | SockSt.connecting => { s with badSend := true }
      | SockSt.opened =>
        if so.closeReq then s
        else { s with socks := modifyIdx s.socks k (fun x => { x with msgs := x.msgs ++ [m] }) }
      | SockSt.closedSt => s

/-- `connect()`: if `!navigator.onLine`, log and return; otherwise create a
new `WebSocket` and assign it to the mutable `socket` variable.  The
previous socket, if any, is neither closed nor touched. -/
def connect (s : HookState) : HookState :=
  if s.onLine then
    { s with socks := s.socks ++ [⟨SockSt.connecting, false, [], false⟩],
             socketVar := some s.socks.length }
  else s

/-- Body of `socket.onopen`: `setWs(socket); setIsConnected(true);
retryDelay = 1000; socket.send(JSON.stringify(...))`.  Note that it reads
the mutable `socket` variable, which may already hold a newer socket than
the one whose `onopen` fired. -/
def onOpenBody (s : HookState) : HookState :=
  sendOn { s with ws := s.socketVar, isConnected := true, retryDelay := initialDelay }
    s.socketVar enteredPayload

/-- Body of `socket.onclose`: return if `isManuallyClosed`, else
`setIsConnected(false)` and `setTimeout(..., retryDelay + jitter)`.  The
timer's delay is the current `retryDelay` plus the fresh jitter; the
doubling of `retryDelay` happens inside the timer callback, not here. -/
def onCloseBody (s : HookState) (jitter : ℚ) : HookState :=
  if s.isManuallyClosed then s
  else { s with isConnected := false,
                timers := s.timers ++ [(s.retryDelay : ℚ) + jitter] }

/-- Body of `socket.onerror`: `socket.close()` — on the mutable `socket`
variable, hence possibly on a newer socket than the erroring one. -/
def onErrorBody (s : HookState) : HookState :=
  closeVar s

/-- The `setTimeout` callback scheduled by `onclose`:
`retryDelay = Math.min(retryDelay * 2, maxDelay); connect();`.  It has no
`isManuallyClosed` guard of its own. -/
def timerBody (s : HookState) : HookState :=
  connect { s with retryDelay := min (s.retryDelay * 2) maxDelay }

/-- `handleOnline`: reset `retryDelay` and reconnect immediately.  No
pending timer is cancelled (the hook keeps no timer handle). -/
def handleOnline (s : HookState) : HookState :=
  connect { s with retryDelay := initialDelay }

/-- `handleOffline`: `socket?.close()`. -/
def handleOffline (s : HookState) : HookState :=
  closeVar s

/-- The effect body: register both window listeners, then `connect()`. -/
def mountBody (s : HookState) : HookState :=
  connect { s with mounted := true, onlineReg := true, offlineReg := true }

/-- The effect cleanup: `isManuallyClosed = true; socket?.close();` and
remove both window listeners.  No `clearTimeout` is performed. -/
def cleanupBody (s : HookState) : HookState :=
  { closeVar { s with isManuallyClosed := true } with
      onlineReg := false, offlineReg := false }

/-- Environment events delivered to one hook instance. -/
inductive Ev
  | mount
  | openEv (i : Nat)
  | closeEv (i : Nat) (jitter : ℚ)
  | errorEv (i : Nat)
  | online
  | offline
  | timerFire (k : Nat)
  | cleanup
  deriving DecidableEq

/-- Effect of delivering one event.  Browser-side `readyState` updates
happen before the corresponding handler body runs; `navigator.onLine` is
already updated when an `online`/`offline` event fires, and the handlers
run only while registered. -/
def applyEv (s : HookState) : Ev → HookState
  | Ev.mount => mountBody s
  | Ev.openEv i =>
    let f := fun (k : Sock) => { k with st := SockSt.opened, everOpened := true }
    onOpenBody { s with socks := modifyIdx s.socks i f }
  | Ev.closeEv i j =>
    let f := fun (k : Sock) => { k with st := SockSt.closedSt }
    onCloseBody { s with socks := modifyIdx s.socks i f } j
  | Ev.errorEv _ => onErrorBody s
  | Ev.online =>
    let s' := { s with onLine := true }
    if s.onlineReg then handleOnline s' else s'
  | Ev.offline =>
    let s' := { s with onLine := false }
    if s.offlineReg then handleOffline s' else s'
  | Ev.timerFire k => timerBody { s with timers := s.timers.eraseIdx k }
  | Ev.cleanup => cleanupBody s

/-- When the environment can deliver an event: the effect runs once;
`open` is delivered only to a CONNECTING socket whose `close()` was not
called; `close` and `error` only to a not-yet-CLOSED socket, with the
jitter drawn from `[0, 500)`; `online`/`offline` only on an actual
transition of `navigator.onLine`; a timer firing consumes a pending timer;
cleanup runs only after mount (possibly repeatedly). -/
def evValid (s : HookState) : Ev → Bool
  | Ev.mount => !s.mounted
  | Ev.openEv i =>
    match s.socks[i]? with
    | some k => decide (k.st = SockSt.connecting) && !k.closeReq
    | none => false
  | Ev.closeEv i j =>
    (match s.socks[i]? with
     | some k => !decide (k.st = SockSt.closedSt)
     | none => false) && decide (0 ≤ j) && decide (j < 500)
  | Ev.errorEv i =>
    match s.socks[i]? with
    | some k => !decide (k.st = SockSt.closedSt)
    | none => false
  | Ev.online => !s.onLine
  | Ev.offline => s.onLine
  | Ev.timerFire k => decide (k < s.timers.length)
  | Ev.cleanup => s.mounted

/-- Fold a list of events from a state, failing on an undeliverable one. -/
def run? (s : HookState) : List Ev → Option HookState
  | [] => some s
  | e :: t => if evValid s e then run? (applyEv s e) t else none

/-- State at effect start: closure variables initialized, React state at
its `useState` defaults, no sockets, no timers, no listeners;
`navigator.onLine` is the environment's choice `b`. -/
def initState (b : Bool) : HookState :=
  ⟨false, initialDelay, none, none, false, b, [], [], false, false, false, false⟩

/-- Base (pre-jitter) retry delay before the `n`-th retry timer fires:
`retryDelay` starts at 1000 and each timer callback doubles it, capped at
`maxDelay`. -/
def retryBase : Nat → Nat
  | 0 => initialDelay
  | n + 1 => min (retryBase n * 2) maxDelay

/-- The mount followed by `n` failure cycles while online: the current
socket's close event (jitter `js k` for the `k`-th) followed by the firing
of the retry timer it scheduled. -/
def failTrace : Nat → (Nat → ℚ) → List Ev
  | 0, _ => [Ev.mount]
  | n + 1, js => failTrace n js ++ [Ev.closeEv n (js n), Ev.timerFire 0]

/-- A socket whose attempt failed without opening: CLOSED, no `close()`
call, nothing sent. -/
def closedSock : Sock := ⟨SockSt.closedSt, false, [], false⟩

/-- A freshly created socket: CONNECTING, nothing sent. -/
def freshSock : Sock := ⟨SockSt.connecting, false, [], false⟩

/-- State after `failTrace n`: `n` dead sockets, a fresh attempt `n` in
flight, `retryDelay` grown to `retryBase n`, no pending timer. -/
def failState (n : Nat) : HookState :=
  ⟨false, retryBase n, some n, none, false, true,
    List.replicate n closedSock ++ [freshSock], [], true, true, true, false⟩

/-! ### List helper lemmas -/

theorem getElem?_concat_length (l : List α) (a : α) : (l ++ [a])[l.length]? = some a := by
  induction l with
  | nil => rfl
  | cons b t ih => simp [ih]

theorem modifyIdx_append_length (l : List α) (a : α) (f : α → α) :
    modifyIdx (l ++ [a]) l.length f = l ++ [f a] := by
  induction l with
  | nil => rfl
  | cons b t ih => simp [modifyIdx, ih]

theorem run?_append (t u : List Ev) : ∀ s : HookState,
    run? s (t ++ u) = (run? s t).bind (fun s' => run? s' u) := by
  induction t with
  | nil => intro s; rfl
  | cons e t ih =>
    intro s
    by_cases h : evValid s e = true
    · simp [run?, h, ih]
    · simp [run?, h]

/-! ### Characterization of a run of consecutive failures -/

/-- State right after the `n`-th attempt's close event: the retry timer for
delay `retryBase n + j` is pending and nothing else changed. -/
def closedFailState (n : Nat) (j : ℚ) : HookState :=
  ⟨false, retryBase n, some n, none, false, true,
    List.replicate (n + 1) closedSock, [(retryBase n : ℚ) + j],
    true, true, true, false⟩

theorem failSocks_get (n : Nat) :
    (List.replicate n closedSock ++ [freshSock])[n]? = some freshSock := by
  have h := getElem?_concat_length (List.replicate n closedSock) freshSock
  rwa [List.length_replicate] at h

theorem failState_close (n : Nat) (j : ℚ) (h0 : 0 ≤ j) (h1 : j < 500) :
    run? (failState n) [Ev.closeEv n j] = some (closedFailState n j) := by
  have hmod : modifyIdx (List.replicate n closedSock ++ [freshSock]) n
      (fun k => { k with st := SockSt.closedSt }) = List.replicate (n + 1) closedSock := by
    have h := modifyIdx_append_length (List.replicate n closedSock) freshSock
      (fun k => { k with st := SockSt.closedSt })
    rw [List.length_replicate] at h
    rw [h, List.replicate_succ']
    rfl
  have e1 : evValid (failState n) (Ev.closeEv n j) = true := by
    simp [evValid, failState, failSocks_get, freshSock, h0, h1]
  have s1 : applyEv (failState n) (Ev.closeEv n j) = closedFailState n j := by
    simp [applyEv, failState, hmod, onCloseBody, closedFailState]
  simp [run?, e1, s1]

theorem closedFail_fire (n : Nat) (j : ℚ) :
    run? (closedFailState n j) [Ev.timerFire 0] = some (failState (n + 1)) := by
  have e2 : evValid (closedFailState n j) (Ev.timerFire 0) = true := by
    simp [evValid, closedFailState]
  have s2 : applyEv (closedFailState n j) (Ev.timerFire 0) = failState (n + 1) := by
    simp [applyEv, closedFailState, timerBody, connect, failState, retryBase,
      List.eraseIdx, freshSock]
  simp [run?, e2, s2]

theorem failState_step (n : Nat) (j : ℚ) (h0 : 0 ≤ j) (h1 : j < 500) :
    run? (failState n) [Ev.closeEv n j, Ev.timerFire 0] = some (failState (n + 1)) := by
  have h : [Ev.closeEv n j, Ev.timerFire 0] = [Ev.closeEv n j] ++ [Ev.timerFire 0] := rfl
  rw [h, run?_append, failState_close n j h0 h1]
  exact closedFail_fire n j

theorem failTrace_run (n : Nat) (js : Nat → ℚ) (h : ∀ k, 0 ≤ js k ∧ js k < 500) :
    run? (initState true) (failTrace n js) = some (failState n) := by
  induction n with
  | zero => rfl
  | succ m ih =>
    rw [failTrace, run?_append, ih]
    exact failState_step m (js m) (h m).1 (h m).2

/-- The delay cap: from the fifth doubling on, the base delay is pinned at
`maxDelay`. -/
theorem retryBase_cap (k : Nat) (h : 5 ≤ k) : retryBase k = 30000 := by
  induction k with
  | zero => omega
  | succ m ih =>
    rcases Nat.lt_or_ge m 5 with hm | hm
    · have : m = 4 := by omega
      subst this
      decide
    · rw [retryBase, ih hm]
      decide

/-- A successful open of attempt `n` followed by its close: `retryDelay`
is back at `initialDelay`, the payload was sent, and the new retry timer
has delay `1000 + j`. -/
theorem failState_open_close (n : Nat) (j : ℚ) (h0 : 0 ≤ j) (h1 : j < 500) :
    run? (failState n) [Ev.openEv n, Ev.closeEv n j] =
      some ⟨false, initialDelay, some n, some n, false, true,
        List.replicate n closedSock ++ [⟨SockSt.closedSt, false, [enteredPayload], true⟩],
        [(initialDelay : ℚ) + j], true, true, true, false⟩ := by
  have hmod1 : modifyIdx (List.replicate n closedSock ++ [freshSock]) n
      (fun k => { k with st := SockSt.opened, everOpened := true }) =
      List.replicate n closedSock ++ [⟨SockSt.opened, false, [], true⟩] := by
    have h := modifyIdx_append_length (List.replicate n closedSock) freshSock
      (fun k => { k with st := SockSt.opened, everOpened := true })
    rwa [List.length_replicate] at h
  have hget1 : (List.replicate n closedSock ++
      [(⟨SockSt.opened, false, [], true⟩ : Sock)])[n]? =
      some ⟨SockSt.opened, false, [], true⟩ := by
    have h := getElem?_concat_length (List.replicate n closedSock)
      (⟨SockSt.opened, false, [], true⟩ : Sock)
    rwa [List.length_replicate] at h
  have hmod2 : modifyIdx (List.replicate n closedSock ++
      [(⟨SockSt.opened, false, [], true⟩ : Sock)]) n
      (fun x => { x with msgs := x.msgs ++ [enteredPayload] }) =
      List.replicate n closedSock ++ [⟨SockSt.opened, false, [enteredPayload], true⟩] := by
    have h := modifyIdx_append_length (List.replicate n closedSock)
      (⟨SockSt.opened, false, [], true⟩ : Sock)
      (fun x => { x with msgs := x.msgs ++ [enteredPayload] })
    rwa [List.length_replicate] at h
  have e1 : evValid (failState n) (Ev.openEv n) = true := by
    simp [evValid, failState, failSocks_get, freshSock]
  have s1 : applyEv (failState n) (Ev.openEv n) =
      ⟨false, initialDelay, some n, some n, true, true,
        List.replicate n closedSock ++ [⟨SockSt.opened, false, [enteredPayload], true⟩],
        [], true, true, true, false⟩ := by
    simp [applyEv, failState, hmod1, onOpenBody, sendOn, hget1, hmod2]
  have hget2 : (List.replicate n closedSock ++
      [(⟨SockSt.opened, false, [enteredPayload], true⟩ : Sock)])[n]? =
      some ⟨SockSt.opened, false, [enteredPayload], true⟩ := by
    have h := getElem?_concat_length (List.replicate n closedSock)
      (⟨SockSt.opened, false, [enteredPayload], true⟩ : Sock)
    rwa [List.length_replicate] at h
  have hmod3 : modifyIdx (List.replicate n closedSock ++
      [(⟨SockSt.opened, false, [enteredPayload], true⟩ : Sock)]) n
      (fun k => { k with st := SockSt.closedSt }) =
      List.replicate n closedSock ++ [⟨SockSt.closedSt, false, [enteredPayload], true⟩] := by
    have h := modifyIdx_append_length (List.replicate n closedSock)
      (⟨SockSt.opened, false, [enteredPayload], true⟩ : Sock)
      (fun k => { k with st := SockSt.closedSt })
    rwa [List.length_replicate] at h
  have e2 : evValid (⟨false, initialDelay, some n, some n, true, true,
      List.replicate n closedSock ++ [⟨SockSt.opened, false, [enteredPayload], true⟩],
      [], true, true, true, false⟩ : HookState) (Ev.closeEv n j) = true := by
    simp [evValid, hget2, h0, h1]
  have s2 : applyEv (⟨false, initialDelay, some n, some n, true, true,
      List.replicate n closedSock ++ [⟨SockSt.opened, false, [enteredPayload], true⟩],
      [], true, true, true, false⟩ : HookState) (Ev.closeEv n j) =
      ⟨false, initialDelay, some n, some n, false, true,
        List.replicate n closedSock ++ [⟨SockSt.closedSt, false, [enteredPayload], true⟩],
        [(initialDelay : ℚ) + j], true, true, true, false⟩ := by
    simp [applyEv, hmod3, onCloseBody]
  simp [run?, e1, s1, e2, s2]

/-! ### The payload invariant -/

theorem getElem?_modifyIdx (l : List α) (i p : Nat) (f : α → α) :
    (modifyIdx l i f)[p]? = if p = i then (l[p]?).map f else l[p]? := by
  induction l generalizing i p with
  | nil => simp [modifyIdx]
  | cons a t ih =>
    cases i with
    | zero =>
      cases p with
      | zero => simp [modifyIdx]
      | succ q => simp [modifyIdx]
    | succ m =>
      cases p with
      | zero => simp [modifyIdx]
      | succ q => simpa [modifyIdx] using ih m q

theorem getElem?_concat (l : List α) (a : α) (p : Nat) (k : α)
    (h : (l ++ [a])[p]? = some k) : l[p]? = some k ∨ k = a := by
  induction l generalizing p with
  | nil =>
    cases p with
    | zero => right; simpa using h.symm
    | succ q => simp at h
  | cons b t ih =>
    cases p with
    | zero => left; simpa using h
    | succ q =>
      simp only [List.cons_append, List.getElem?_cons_succ] at h ⊢
      exact ih q h

/-- The per-socket payload discipline: a socket that has reported open
carries exactly the presence payload (sent first and once), one that has
not carries nothing; a still-CONNECTING socket has never reported open. -/
abbrev sockOk (k : Sock) : Prop :=
  (k.everOpened = true → k.msgs = [enteredPayload]) ∧
  (k.everOpened = false → k.msgs = []) ∧
  (k.st = SockSt.connecting → k.everOpened = false)

/-- Every socket created so far obeys the payload discipline. -/
abbrev invMsgs (s : HookState) : Prop :=
  ∀ (p : Nat) (k : Sock), s.socks[p]? = some k → sockOk k

theorem invMsgs_connect (s : HookState) (h : invMsgs s) : invMsgs (connect s) := by
  intro p k hk
  by_cases ho : s.onLine = true
  · simp only [connect, ho, if_true] at hk
    rcases getElem?_concat _ _ _ _ hk with h' | h'
    · exact h p k h'
    · subst h'
      exact ⟨by simp, by simp, by simp⟩
  · simp only [connect, Bool.not_eq_true] at ho
    simp only [connect, ho, Bool.false_eq_true, if_false] at hk
    exact h p k hk

theorem invMsgs_closeCall (s : HookState) (i : Nat) (h : invMsgs s) :
    invMsgs (closeCall s i) := by
  intro p k hk
  simp only [closeCall, getElem?_modifyIdx] at hk
  by_cases hp : p = i
  · simp only [hp, if_true] at hk
    cases hs : s.socks[i]? with
    | none => simp [hs] at hk
    | some k0 =>
      simp only [hs, Option.map_some'] at hk
      have h0 := h i k0 hs
      by_cases hc : k0.st = SockSt.closedSt
      · rw [if_pos hc] at hk
        cases hk
        exact h0
      · rw [if_neg hc] at hk
        cases hk
        exact ⟨h0.1, h0.2.1, h0.2.2⟩
  · simp only [hp, if_false] at hk
    exact h p k hk

theorem invMsgs_closeVar (s : HookState) (h : invMsgs s) : invMsgs (closeVar s) := by
  cases hv : s.socketVar with
  | none =>
    intro p k hk
    simp only [closeVar, hv] at hk
    exact h p k hk
  | some i =>
    intro p k hk
    simp only [closeVar, hv] at hk
    exact invMsgs_closeCall s i h p k hk

/-- A trace is good when every event is deliverable and every `open` event
is delivered to the socket currently held by the mutable `socket` variable
(no superseded attempt ever reports open). -/
def goodTrace (s : HookState) : List Ev → Bool
  | [] => true
  | e :: t =>
    (evValid s e &&
      (match e with
       | Ev.openEv i => decide (s.socketVar = some i)
       | _ => true)) &&
    goodTrace (applyEv s e) t

theorem modifyIdx_modifyIdx (l : List α) (i : Nat) (f g : α → α) :
    modifyIdx (modifyIdx l i f) i g = modifyIdx l i (fun x => g (f x)) := by
  induction l generalizing i with
  | nil => rfl
  | cons a t ih =>
    cases i with
    | zero => rfl
    | succ m => simp [modifyIdx, ih]

theorem invMsgs_applyEv (s : HookState) (e : Ev) (hv : evValid s e = true)
    (hg : ∀ i, e = Ev.openEv i → s.socketVar = some i)
    (hI : invMsgs s) : invMsgs (applyEv s e) := by
  cases e with
  | mount =>
    simp only [applyEv, mountBody]
    exact invMsgs_connect _ (fun p k hk => hI p k hk)
  | openEv i =>
    have hvar : s.socketVar = some i := hg i rfl
    cases hsi : s.socks[i]? with
    | none => simp [evValid, hsi] at hv
    | some k0 =>
      simp only [evValid, hsi, Bool.and_eq_true, decide_eq_true_eq,
        Bool.not_eq_true'] at hv
      have hst : k0.st = SockSt.connecting := hv.1
      have hcr : k0.closeReq = false := hv.2
      have h0 := hI i k0 hsi
      have hev : k0.everOpened = false := h0.2.2 hst
      have hms : k0.msgs = [] := h0.2.1 hev
      have hsocks : (applyEv s (Ev.openEv i)).socks =
          modifyIdx (modifyIdx s.socks i
            (fun x => { x with st := SockSt.opened, everOpened := true })) i
            (fun x => { x with msgs := x.msgs ++ [enteredPayload] }) := by
        simp [applyEv, onOpenBody, hvar, sendOn, getElem?_modifyIdx, hsi, hcr]
      intro p k hk
      rw [hsocks, getElem?_modifyIdx] at hk
      by_cases hp : p = i
      · rw [if_pos hp, hp, getElem?_modifyIdx, if_pos rfl, hsi] at hk
        simp only [Option.map_some'] at hk
        cases hk
        refine ⟨fun _ => ?_, fun hf => ?_, fun hc => ?_⟩
        · simp [hms]
        · simp at hf
        · simp at hc
      · rw [if_neg hp, getElem?_modifyIdx, if_neg hp] at hk
        exact hI p k hk
  | closeEv i j =>
    have hsocks : (applyEv s (Ev.closeEv i j)).socks =
        modifyIdx s.socks i (fun x => { x with st := SockSt.closedSt }) := by
      cases hm : s.isManuallyClosed <;> simp [applyEv, onCloseBody, hm]
    intro p k hk
    rw [hsocks, getElem?_modifyIdx] at hk
    by_cases hp : p = i
    · rw [if_pos hp, hp] at hk
      cases hs : s.socks[i]? with
      | none => rw [hs] at hk; cases hk
      | some k0 =>
        rw [hs] at hk
        simp only [Option.map_some'] at hk
        cases hk
        have h0 := hI i k0 hs
        refine ⟨h0.1, h0.2.1, fun hc => ?_⟩
        simp at hc
    · rw [if_neg hp] at hk
      exact hI p k hk
  | errorEv i =>
    simp only [applyEv, onErrorBody]
    exact invMsgs_closeVar s hI
  | online =>
    simp only [applyEv]
    by_cases hr : s.onlineReg = true
    · rw [if_pos hr]
      exact invMsgs_connect _ (fun p k hk => hI p k hk)
    · rw [if_neg hr]
      exact fun p k hk => hI p k hk
  | offline =>
    simp only [applyEv]
    by_cases hr : s.offlineReg = true
    · rw [if_pos hr]
      exact invMsgs_closeVar _ (fun p k hk => hI p k hk)
    · rw [if_neg hr]
      exact fun p k hk => hI p k hk
  | timerFire k =>
    simp only [applyEv, timerBody]
    exact invMsgs_connect _ (fun p k hk => hI p k hk)
  | cleanup =>
    simp only [applyEv, cleanupBody]
    have h1 : invMsgs (closeVar { s with isManuallyClosed := true }) :=
      invMsgs_closeVar _ (fun p k hk => hI p k hk)
    exact fun p k hk => h1 p k hk
theorem invMsgs_run (t : List Ev) : ∀ s s', invMsgs s → goodTrace s t = true →
    run? s t = some s' → invMsgs s' := by
  induction t with
  | nil =>
    intro s s' hI _ hr
    simp only [run?, Option.some.injEq] at hr
    exact hr ▸ hI
  | cons e t ih =>
    intro s s' hI hg hr
    simp only [goodTrace, Bool.and_eq_true, decide_eq_true_eq] at hg
    have hv : evValid s e = true := hg.1.1
    simp only [run?, hv, if_true] at hr
    refine ih (applyEv s e) s' ?_ hg.2 hr
    refine invMsgs_applyEv s e hv ?_ hI
    intro i hei
    subst hei
    have h2 := hg.1.2
    simpa using h2

/-! ### Claims -/

/-- C1: the claimed invariant — at most one transport session Connecting or
Connected at a time, and no event sequence ever yields two sockets that
both reported open without an intervening close — fails on the code.  After
mount (while online), an offline/online blip, the open of socket 1, the
close event of the abandoned socket 0 (which schedules a retry), the retry
timer firing (which creates socket 2 while socket 1 is open) and the open
of socket 2, sockets 1 and 2 are both OPEN with no close between them. -/
theorem two_live_sockets :
    (run? (initState true) [Ev.mount, Ev.offline, Ev.online, Ev.openEv 1,
        Ev.closeEv 0 0, Ev.timerFire 0, Ev.openEv 2]).map
      (fun s => s.socks.map (fun k => (k.st, k.closeReq, k.everOpened))) =
    some [(SockSt.closedSt, true, false), (SockSt.opened, false, true),
      (SockSt.opened, false, true)] := by
  decide

/-- C2 (counterexample): the claim that a reachability-restored event
cancels the pending retry timer so that it never fires — one attempt, not
two — fails on the code.  After a failure schedules a retry timer, an
offline/online transition starts an immediate attempt (socket 1) but the
timer is still pending (`timers.length = 1`), and when it fires it starts
a further attempt (socket 2, three sockets in total). -/
theorem online_no_cancel_cex :
    ((run? (initState true) [Ev.mount, Ev.closeEv 0 0, Ev.offline, Ev.online]).map
      (fun s => (s.timers.length, s.socks.length)) = some (1, 2)) ∧
    ((run? (initState true) [Ev.mount, Ev.closeEv 0 0, Ev.offline, Ev.online,
        Ev.timerFire 0]).map (fun s => s.socks.length) = some 3) := by
  exact ⟨by decide, by decide⟩

/-- C2 (amended): when the online event fires while the handler is
registered, the retry delay is reset to `initialDelay` and one connection
attempt starts immediately, but the pending retry timers are left exactly
as they were (none is cancelled), and a pending timer that later fires
while online starts an additional attempt after doubling the delay. -/
theorem online_restores_without_cancel (s t : HookState) (k : Nat)
    (hs : s.onlineReg = true) (ht : t.onLine = true) :
    (applyEv s Ev.online).retryDelay = initialDelay ∧
    (applyEv s Ev.online).timers = s.timers ∧
    (applyEv s Ev.online).socks.length = s.socks.length + 1 ∧
    (applyEv t (Ev.timerFire k)).socks.length = t.socks.length + 1 ∧
    (applyEv t (Ev.timerFire k)).retryDelay = min (t.retryDelay * 2) maxDelay := by
  refine ⟨?_, ?_, ?_, ?_, ?_⟩ <;>
    simp [applyEv, handleOnline, timerBody, connect, hs, ht]

/-- C2 witness: the amended statement at the state right after mount. -/
theorem online_restores_witness :
    ((applyEv (initState true) Ev.mount).onlineReg = true ∧
     (applyEv (initState true) Ev.mount).onLine = true) ∧
    ((applyEv (applyEv (initState true) Ev.mount) Ev.online).retryDelay = initialDelay ∧
     (applyEv (applyEv (initState true) Ev.mount) Ev.online).timers =
       (applyEv (initState true) Ev.mount).timers ∧
     (applyEv (applyEv (initState true) Ev.mount) Ev.online).socks.length =
       (applyEv (initState true) Ev.mount).socks.length + 1 ∧
     (applyEv (applyEv (initState true) Ev.mount) (Ev.timerFire 0)).socks.length =
       (applyEv (initState true) Ev.mount).socks.length + 1 ∧
     (applyEv (applyEv (initState true) Ev.mount) (Ev.timerFire 0)).retryDelay =
       min ((applyEv (initState true) Ev.mount).retryDelay * 2) maxDelay) :=
  ⟨⟨rfl, rfl⟩, online_restores_without_cancel _ _ 0 rfl rfl⟩

/-- C3: the claim that after teardown no subsequent event causes any
further connection attempt fails on the code: the cleanup does not cancel
the pending retry timer, and when that timer matures (while online) its
callback doubles the delay and calls `connect()`, which creates a brand
new WebSocket — here a second socket exists after teardown even though
`isManuallyClosed` is set and the listeners were removed. -/
theorem attempt_after_teardown :
    (run? (initState true) [Ev.mount, Ev.closeEv 0 0, Ev.cleanup, Ev.timerFire 0]).map
      (fun s => (s.isManuallyClosed, s.onlineReg, s.offlineReg, s.socks.length)) =
    some (true, false, false, 2) := by
  decide

/-- C4: consecutive failures while reachable schedule waits whose bases are
`1000, 2000, 4000, 8000, 16000, 30000` and stay capped at `30000` from then
on; the `n`-th failure's scheduled wait is `retryBase n + jitter`, inside
`[retryBase n, retryBase n + 500)`; and the persisted base after the timer
fires is `retryBase (n+1)`, independent of every jitter (jitter is never
folded into the base). -/
theorem backoff_growth (n : Nat) (js : Nat → ℚ) (h : ∀ k, 0 ≤ js k ∧ js k < 500) :
    ((List.range 6).map retryBase = [1000, 2000, 4000, 8000, 16000, 30000] ∧
      (∀ k, 5 ≤ k → retryBase k = 30000)) ∧
    (∃ s, run? (initState true) (failTrace n js ++ [Ev.closeEv n (js n)]) = some s ∧
      s.retryDelay = retryBase n ∧
      s.timers = [(retryBase n : ℚ) + js n] ∧
      (retryBase n : ℚ) ≤ (retryBase n : ℚ) + js n ∧
      (retryBase n : ℚ) + js n < (retryBase n : ℚ) + 500) ∧
    (∃ s, run? (initState true) (failTrace (n + 1) js) = some s ∧
      s.retryDelay = retryBase (n + 1)) := by
  refine ⟨⟨by decide, retryBase_cap⟩, ?_, ?_⟩
  · refine ⟨closedFailState n (js n), ?_, rfl, rfl, ?_, ?_⟩
    · rw [run?_append, failTrace_run n js h]
      exact failState_close n (js n) (h n).1 (h n).2
    · exact le_add_of_nonneg_right (h n).1
    · exact add_lt_add_left (h n).2 _
  · exact ⟨failState (n + 1), failTrace_run (n + 1) js h, rfl⟩

/-- C4 witness: the backoff statement at five failures with jitter 250. -/
theorem backoff_growth_witness :
    (∀ k : Nat, 0 ≤ (fun _ : Nat => (250 : ℚ)) k ∧ (fun _ : Nat => (250 : ℚ)) k < 500) ∧
    (((List.range 6).map retryBase = [1000, 2000, 4000, 8000, 16000, 30000] ∧
      (∀ k, 5 ≤ k → retryBase k = 30000)) ∧
    (∃ s, run? (initState true) (failTrace 5 (fun _ : Nat => (250 : ℚ)) ++
        [Ev.closeEv 5 ((fun _ : Nat => (250 : ℚ)) 5)]) = some s ∧
      s.retryDelay = retryBase 5 ∧
      s.timers = [(retryBase 5 : ℚ) + (fun _ : Nat => (250 : ℚ)) 5] ∧
      (retryBase 5 : ℚ) ≤ (retryBase 5 : ℚ) + (fun _ : Nat => (250 : ℚ)) 5 ∧
      (retryBase 5 : ℚ) + (fun _ : Nat => (250 : ℚ)) 5 < (retryBase 5 : ℚ) + 500) ∧
    (∃ s, run? (initState true) (failTrace (5 + 1) (fun _ : Nat => (250 : ℚ))) = some s ∧
      s.retryDelay = retryBase (5 + 1))) :=
  ⟨fun _ => ⟨by norm_num, by norm_num⟩,
    backoff_growth 5 (fun _ : Nat => (250 : ℚ)) (fun _ => ⟨by norm_num, by norm_num⟩)⟩

/-- C5: the claim that a close while not shut down clears the published
session handle (`ws` becomes null) fails on the code: `onclose` calls
`setIsConnected(false)` but never `setWs(null)`, so after open followed by
close the published `ws` still holds socket 0 while `isConnected` is
false. -/
theorem ws_not_cleared_on_close :
    (run? (initState true) [Ev.mount, Ev.openEv 0, Ev.closeEv 0 0]).map
      (fun s => (s.ws, s.isConnected)) = some (some 0, false) := by
  decide

/-- C6 (counterexample): the claim that a retry timer firing while
unreachable does not consume a backoff growth step fails on the code: the
timer callback doubles `retryDelay` before `connect()` checks
reachability, so after one failure, going offline, and the timer firing,
no attempt happened (still one socket, no timer) but `retryDelay` is
2000, not 1000. -/
theorem offline_timer_growth_cex :
    (run? (initState true) [Ev.mount, Ev.closeEv 0 0, Ev.offline, Ev.timerFire 0]).map
      (fun s => (s.socks.length, s.timers.length, s.retryDelay)) =
    some (1, 0, 2000) := by
  decide

/-- C6 (amended): when a retry timer fires while unreachable, no connection
attempt is performed and no new timer is scheduled (the supervisor is left
idle waiting for restoration, all published state unchanged), but the
firing does consume a growth step: the base delay is doubled (capped at
`maxDelay`). -/
theorem offline_timer_no_attempt (s : HookState) (k : Nat) (h : s.onLine = false) :
    (applyEv s (Ev.timerFire k)).socks = s.socks ∧
    (applyEv s (Ev.timerFire k)).timers = s.timers.eraseIdx k ∧
    (applyEv s (Ev.timerFire k)).retryDelay = min (s.retryDelay * 2) maxDelay ∧
    (applyEv s (Ev.timerFire k)).socketVar = s.socketVar ∧
    (applyEv s (Ev.timerFire k)).ws = s.ws ∧
    (applyEv s (Ev.timerFire k)).isConnected = s.isConnected := by
  refine ⟨?_, ?_, ?_, ?_, ?_, ?_⟩ <;> simp [applyEv, timerBody, connect, h]

/-- C6 witness: the amended statement at the offline initial state. -/
theorem offline_timer_witness :
    (initState false).onLine = false ∧
    ((applyEv (initState false) (Ev.timerFire 0)).socks = (initState false).socks ∧
     (applyEv (initState false) (Ev.timerFire 0)).timers =
       (initState false).timers.eraseIdx 0 ∧
     (applyEv (initState false) (Ev.timerFire 0)).retryDelay =
       min ((initState false).retryDelay * 2) maxDelay ∧
     (applyEv (initState false) (Ev.timerFire 0)).socketVar = (initState false).socketVar ∧
     (applyEv (initState false) (Ev.timerFire 0)).ws = (initState false).ws ∧
     (applyEv (initState false) (Ev.timerFire 0)).isConnected =
       (initState false).isConnected) :=
  ⟨rfl, offline_timer_no_attempt (initState false) 0 rfl⟩

/-- C7: after any number `n` of failed attempts, one successful open resets
the retry state to `initialDelay`, so the next failure schedules its wait
with base 1000: the pending timer is `1000 + j`, inside `[1000, 1500)`. -/
theorem reset_on_success (n : Nat) (js : Nat → ℚ) (j : ℚ)
    (h : ∀ k, 0 ≤ js k ∧ js k < 500) (h0 : 0 ≤ j) (h1 : j < 500) :
    ∃ s, run? (initState true) (failTrace n js ++ [Ev.openEv n, Ev.closeEv n j]) =
        some s ∧
      s.retryDelay = initialDelay ∧
      s.timers = [(initialDelay : ℚ) + j] ∧
      (initialDelay : ℚ) ≤ (initialDelay : ℚ) + j ∧
      (initialDelay : ℚ) + j < 1500 := by
  refine ⟨⟨false, initialDelay, some n, some n, false, true,
      List.replicate n closedSock ++ [⟨SockSt.closedSt, false, [enteredPayload], true⟩],
      [(initialDelay : ℚ) + j], true, true, true, false⟩,
    ?_, rfl, rfl, le_add_of_nonneg_right h0, ?_⟩
  · rw [run?_append, failTrace_run n js h]
    exact failState_open_close n j h0 h1
  · have : (1500 : ℚ) = (initialDelay : ℚ) + 500 := by norm_num [initialDelay]
    rw [this]
    exact add_lt_add_left h1 _

/-- C7 witness: the reset statement after three failures with jitter 250,
then jitter 100 on the failure following the successful open. -/
theorem reset_on_success_witness :
    ((∀ k : Nat, 0 ≤ (fun _ : Nat => (250 : ℚ)) k ∧ (fun _ : Nat => (250 : ℚ)) k < 500) ∧
      (0 : ℚ) ≤ 100 ∧ (100 : ℚ) < 500) ∧
    (∃ s, run? (initState true) (failTrace 3 (fun _ : Nat => (250 : ℚ)) ++
        [Ev.openEv 3, Ev.closeEv 3 100]) = some s ∧
      s.retryDelay = initialDelay ∧
      s.timers = [(initialDelay : ℚ) + 100] ∧
      (initialDelay : ℚ) ≤ (initialDelay : ℚ) + 100 ∧
      (initialDelay : ℚ) + 100 < 1500) :=
  ⟨⟨fun _ => ⟨by norm_num, by norm_num⟩, by norm_num, by norm_num⟩,
    reset_on_success 3 (fun _ : Nat => (250 : ℚ)) 100
      (fun _ => ⟨by norm_num, by norm_num⟩) (by norm_num) (by norm_num)⟩

/-- C8 (counterexample): the claim that on every successful open exactly
one presence payload is sent on that session fails on the code: when a
superseded socket's `onopen` fires, the handler sends through the mutable
`socket` variable.  Here socket 1 reports open but receives no payload,
while socket 2 — one successful open — receives the payload twice. -/
theorem superseded_open_cex :
    (run? (initState true) [Ev.mount, Ev.offline, Ev.online, Ev.closeEv 0 0,
        Ev.timerFire 0, Ev.openEv 2, Ev.openEv 1]).map
      (fun s => s.socks.map (fun k => (k.everOpened, k.msgs))) =
    some [(false, []), (true, []), (true, [enteredPayload, enteredPayload])] := by
  decide

/-- C8 (amended): in every run in which an open event is only ever
delivered to the socket currently held by the mutable `socket` variable
(no superseded attempt reports open), every socket that has reported open
carries exactly the presence payload `\x7b"type":"entered"\x7d` — sent
once, as the first and only payload — and a socket that never reported
open carries nothing. -/
theorem entered_once_per_open (b : Bool) (t : List Ev)
    (hg : goodTrace (initState b) t = true) :
    ∀ s, run? (initState b) t = some s → ∀ (p : Nat) (k : Sock),
      s.socks[p]? = some k →
      (k.everOpened = true → k.msgs = [enteredPayload]) ∧
      (k.everOpened = false → k.msgs = []) := by
  intro s hr p k hk
  have h0 : invMsgs (initState b) := by
    intro p' k' hk'
    simp [initState] at hk'
  have h1 := invMsgs_run t (initState b) s h0 hg hr
  exact ⟨(h1 p k hk).1, (h1 p k hk).2.1⟩

/-- C8 witness: the amended statement on a reconnect run — connect, open,
close, retry, open again. -/
theorem entered_once_witness :
    goodTrace (initState true) [Ev.mount, Ev.openEv 0, Ev.closeEv 0 0,
      Ev.timerFire 0, Ev.openEv 1] = true ∧
    (∀ s, run? (initState true) [Ev.mount, Ev.openEv 0, Ev.closeEv 0 0,
        Ev.timerFire 0, Ev.openEv 1] = some s → ∀ (p : Nat) (k : Sock),
      s.socks[p]? = some k →
      (k.everOpened = true → k.msgs = [enteredPayload]) ∧
      (k.everOpened = false → k.msgs = [])) :=
  ⟨by decide, entered_once_per_open true _ (by decide)⟩

/-- C9: at construction, if reachable then exactly one attempt starts
during the mount itself (one socket, no timer scheduled, nothing thrown);
if unreachable then no attempt is made, no timer is scheduled, nothing is
thrown, and the published state reports Disconnected (`isConnected`
false, `ws` null). -/
theorem construction_behavior :
    ((run? (initState true) [Ev.mount]).map
      (fun s => (s.socks.length, s.timers.length, s.badSend)) =
      some (1, 0, false)) ∧
    ((run? (initState false) [Ev.mount]).map
      (fun s => (s.socks.length, s.timers.length, s.isConnected, s.ws, s.badSend)) =
      some (0, 0, false, none, false)) := by
  exact ⟨by decide, by decide⟩

/-- C10: when no socket was ever created (`socket` variable unassigned),
the offline handler (`socket?.close()`) and the cleanup are safe no-ops on
the absent socket: nothing throws (`badSend` untouched, the optional
chaining short-circuits) and the published `ws` and `isConnected` — and
the socket list itself — are left unchanged. -/
theorem offline_and_cleanup_safe_no_socket (s : HookState) (h : s.socketVar = none) :
    (applyEv s Ev.offline).ws = s.ws ∧
    (applyEv s Ev.offline).isConnected = s.isConnected ∧
    (applyEv s Ev.offline).socks = s.socks ∧
    (applyEv s Ev.offline).badSend = s.badSend ∧
    (applyEv s Ev.cleanup).ws = s.ws ∧
    (applyEv s Ev.cleanup).isConnected = s.isConnected ∧
    (applyEv s Ev.cleanup).socks = s.socks ∧
    (applyEv s Ev.cleanup).badSend = s.badSend := by
  refine ⟨?_, ?_, ?_, ?_, ?_, ?_, ?_, ?_⟩ <;>
    simp [applyEv, handleOffline, cleanupBody, closeVar, h]

/-- C10 witness: the statement at the state mounted while unreachable. -/
theorem offline_cleanup_witness :
    (applyEv (initState false) Ev.mount).socketVar = none ∧
    ((applyEv (applyEv (initState false) Ev.mount) Ev.offline).ws =
       (applyEv (initState false) Ev.mount).ws ∧
     (applyEv (applyEv (initState false) Ev.mount) Ev.offline).isConnected =
       (applyEv (initState false) Ev.mount).isConnected ∧
     (applyEv (applyEv (initState false) Ev.mount) Ev.offline).socks =
       (applyEv (initState false) Ev.mount).socks ∧
     (applyEv (applyEv (initState false) Ev.mount) Ev.offline).badSend =
       (applyEv (initState false) Ev.mount).badSend ∧
     (applyEv (applyEv (initState false) Ev.mount) Ev.cleanup).ws =
       (applyEv (initState false) Ev.mount).ws ∧
     (applyEv (applyEv (initState false) Ev.mount) Ev.cleanup).isConnected =
       (applyEv (initState false) Ev.mount).isConnected ∧
     (applyEv (applyEv (initState false) Ev.mount) Ev.cleanup).socks =
       (applyEv (initState false) Ev.mount).socks ∧
     (applyEv (applyEv (initState false) Ev.mount) Ev.cleanup).badSend =
       (applyEv (initState false) Ev.mount).badSend) :=
  ⟨rfl, offline_and_cleanup_safe_no_socket _ rfl⟩

end ReactWebSocket
